import Mathlib

/-!
Shallow embedding of the `model-loading-gl-v2` repository (Rust sources
`src/window.rs`, `src/renderer.rs`, `src/main.rs`, `build.rs`).

The program drives an OpenGL window. We embed the GPU-facing behaviour as
traces of GL calls (`GlAction`) emitted by the embedded functions, together
with the CPU-side state each function keeps (`GfWindow`, the two `Renderer`
structs). Floating-point literals passed to GL calls are embedded as exact
rationals; the 4x4 matrices built with the `glam` crate are embedded as a
symbolic term algebra (`Mat4`) recording exactly which matrix expression the
code constructs, since their entries are transcendental f32 values whose
numerics none of the claims depend on.

`window.rs` holds the 2-D (non-indexed triangle) variant of `Renderer` plus
the `GfWindow` event handler; `renderer.rs` holds the 3-D (indexed
tetrahedron) variant with model/view matrices and a stored viewport size.
-/

/-! ## OpenGL enum constants (values from the GL 4.6 registry used by the
`gl_generator` bindings in `build.rs`) -/

def GL_TRIANGLES : Nat := 0x0004

def GL_COLOR_BUFFER_BIT : Nat := 0x4000

def GL_DEPTH_BUFFER_BIT : Nat := 0x0100

def GL_FLOAT : Nat := 0x1406

def GL_UNSIGNED_INT : Nat := 0x1405

def GL_ARRAY_BUFFER : Nat := 0x8892

/-! ## Symbolic 4x4 matrices

The Rust code builds matrices with `glam`: `Mat4::from_rotation_x`,
`Mat4::from_translation`, `Mat4::perspective_rh_gl`, and matrix
multiplication. We embed them as the free term algebra over those
constructors, carrying the exact arguments the code passes (angles in
degrees, the viewport integers used for the aspect ratio, near/far planes). -/

inductive Mat4 where
  /-- `Mat4::from_rotation_x(deg.to_radians())` -/
  | fromRotationX (deg : ℚ)
  /-- `Mat4::from_translation(vec3(x, y, z))` -/
  | fromTranslation (x y z : ℚ)
  /-- `Mat4::perspective_rh_gl(fovDeg.to_radians(), w as f32 / h as f32, near, far)` -/
  | perspectiveRhGl (fovDeg : ℚ) (w h : Int) (near far : ℚ)
  /-- matrix product `a * b` -/
  | mul (a b : Mat4)
deriving DecidableEq, Repr

instance : Mul Mat4 := ⟨Mat4.mul⟩

/-! ## GL call / window-system action trace -/

inductive GlAction where
  | useProgram (p : Nat)
  | bindVertexArray (v : Nat)
  | bindBuffer (target : Nat) (b : Nat)
  | clearColor (red green blue alpha : ℚ)
  | clear (mask : Nat)
  | drawArrays (mode : Nat) (first count : Int)
  | drawElements (mode : Nat) (count : Int) (ty : Nat)
  | uniformMatrix4fv (loc : Int) (transpose : Bool) (m : Mat4)
  | viewport (x y w h : Int)
  | deleteProgram (p : Nat)
  | deleteBuffers (b : Nat)
  | deleteVertexArrays (v : Nat)
  | requestRedraw
  | swapBuffers
deriving DecidableEq, Repr

/-- The piece of GL server state the claims observe: the viewport rectangle
set by `glViewport(x, y, w, h)`. -/
structure GlState where
  viewport : Int × Int × Int × Int
deriving DecidableEq, Repr

def applyAction (s : GlState) : GlAction → GlState
  | .viewport x y w h => { s with viewport := (x, y, w, h) }
  | _ => s

def applyTrace (s : GlState) (tr : List GlAction) : GlState :=
  tr.foldl applyAction s

/-- `true` exactly on `DrawElements` calls (indexed draws). -/
def isDrawElements : GlAction → Bool
  | .drawElements _ _ _ => true
  | _ => false

/-- `true` exactly on `DrawArrays` calls (non-indexed draws). -/
def isDrawArrays : GlAction → Bool
  | .drawArrays _ _ _ => true
  | _ => false

/-- `true` exactly on `ClearColor` calls. -/
def isClearColor : GlAction → Bool
  | .clearColor _ _ _ _ => true
  | _ => false

/-- `true` exactly on `Clear` calls. -/
def isClear : GlAction → Bool
  | .clear _ => true
  | _ => false

def isRequestRedraw : GlAction → Bool
  | .requestRedraw => true
  | _ => false

def isSwapBuffers : GlAction → Bool
  | .swapBuffers => true
  | _ => false

/-- Buffer handles released by a trace (arguments of `DeleteBuffers` calls;
each Rust call passes `1` handle by pointer). -/
def releasedBuffers (tr : List GlAction) : List Nat :=
  tr.filterMap fun a => match a with
    | .deleteBuffers b => some b
    | _ => none

/-- Program handles released by a trace. -/
def releasedPrograms (tr : List GlAction) : List Nat :=
  tr.filterMap fun a => match a with
    | .deleteProgram p => some p
    | _ => none

/-- Vertex-array handles released by a trace. -/
def releasedVertexArrays (tr : List GlAction) : List Nat :=
  tr.filterMap fun a => match a with
    | .deleteVertexArrays v => some v
    | _ => none

/-! ## `window.rs`: 2-D variant `Renderer` and the `GfWindow` event handler -/

namespace window

/-- `window.rs` `struct Renderer`: program, vao, vbo handles (the loaded
`gl` dispatch table is implicit in the trace semantics). -/
structure Renderer where
  program : Nat
  vao : Nat
  vbo : Nat
deriving DecidableEq, Repr

/-- `Renderer::draw_with_clear_color` of `window.rs`: UseProgram,
BindVertexArray, BindBuffer, ClearColor, Clear(COLOR), DrawArrays(TRIANGLES,
0, 3), in source order. -/
def Renderer.draw_with_clear_color (r : Renderer)
    (red green blue alpha : ℚ) : List GlAction :=
  [ .useProgram r.program,
    .bindVertexArray r.vao,
    .bindBuffer GL_ARRAY_BUFFER r.vbo,
    .clearColor red green blue alpha,
    .clear GL_COLOR_BUFFER_BIT,
    .drawArrays GL_TRIANGLES 0 3 ]

/-- `Renderer::draw` of `window.rs`: delegates with the literal clear color
`(0.1, 0.1, 0.1, 0.9)`. -/
def Renderer.draw (r : Renderer) : List GlAction :=
  r.draw_with_clear_color (1/10) (1/10) (1/10) (9/10)

/-- `Renderer::resize` of `window.rs`: `gl.Viewport(0, 0, width, height)`;
keeps no CPU-side state. -/
def Renderer.resize (_r : Renderer) (width height : Int) : List GlAction :=
  [ .viewport 0 0 width height ]

/-- `impl Drop for Renderer` of `window.rs`: DeleteProgram, DeleteBuffers(1,
&vbo), DeleteVertexArrays(1, &vao). -/
def Renderer.dropTrace (r : Renderer) : List GlAction :=
  [ .deleteProgram r.program,
    .deleteBuffers r.vbo,
    .deleteVertexArrays r.vao ]

/-- Buffer handles the `window.rs` `Renderer::new` creates: one
`GenBuffers(1, &mut vbo)` call. -/
def newCreatedBuffers (vbo : Nat) : List Nat := [vbo]

/-- The `glutin` surface: carries the window-surface dimensions. -/
structure Surface where
  size : Nat × Nat
deriving DecidableEq, Repr

/-- The `winit` window events the handler can receive; `other` stands for
every variant the source does not name. -/
inductive WindowEvent where
  | redrawRequested
  | resized (width height : Nat)
  | other
deriving DecidableEq, Repr

/-- `struct GfWindow` (the fields the event handler reads; `event_loop`,
`window`, `config`, `exit_state` do not affect the embedded behaviour).
`context` is the `PossiblyCurrentContext`, embedded as an opaque token. -/
structure GfWindow where
  renderer : Option Renderer
  surface : Option Surface
  context : Option Unit
deriving DecidableEq, Repr

/-- `GfWindow::window_event`: matches ONLY `RedrawRequested` (draw, then
`request_redraw`, then `swap_buffers`); every other event, including
`Resized`, falls through to the trailing `dbg!` with no effect. `none`
models the `unwrap()` panics on the `Option` fields. -/
def GfWindow.window_event (w : GfWindow) (event : WindowEvent) :
    Option (GfWindow × List GlAction) :=
  match event with
  | .redrawRequested => do
      let r ← w.renderer
      let _s ← w.surface
      let _c ← w.context
      pure (w, r.draw ++ [.requestRedraw, .swapBuffers])
  | _ => pure (w, [])

/-- `GfWindow::new`'s `config_picker` closure input: a `glutin` `Config`.
`id` distinguishes platform candidates; `num_samples` is
`GlConfig::num_samples`. -/
structure Config where
  id : Nat
  num_samples : Nat
deriving DecidableEq, Repr

/-- The `config_picker` closure of `GfWindow::new`:
`configs.reduce(|acc, config| if config.num_samples() > acc.num_samples()
{ config } else { acc })`; `none` models the `.unwrap()` panic on an empty
iterator. -/
def config_picker (configs : List Config) : Option Config :=
  match configs with
  | [] => none
  | c :: rest =>
      some (rest.foldl
        (fun acc config =>
          if config.num_samples > acc.num_samples then config else acc) c)

end window

/-! ## `renderer.rs`: 3-D indexed variant `Renderer` -/

namespace renderer

/-- `renderer.rs` `struct Renderer`: GL handles plus the model/view matrices
and the stored viewport size (initialised to `(800, 600)` in `new`). -/
structure Renderer where
  program : Nat
  vao : Nat
  vbo : Nat
  model_matrix : Mat4
  view_matrix : Mat4
  viewport_size : Int × Int
deriving DecidableEq, Repr

/-- Results of GL queries the draw path performs: `GetUniformLocation`. -/
structure GlEnv where
  uniformLocation : Nat → String → Int

/-- `Renderer::new` of `renderer.rs`, given the handles the driver returns
for `CreateProgram`, `CreateVertexArrays`, `CreateBuffers` (vbo), and
`CreateBuffers` (ibo). `none` models an `assert_ne!` abort. The asserts, in
source order: `assert_ne!(vao, 0)`, `assert_ne!(vbo, 0)`, and — verbatim
from line 80 — `assert_ne!(ibo, 1)`. The returned struct stores
`model_matrix = Mat4::from_rotation_x((-95.0).to_radians())`,
`view_matrix = Mat4::from_translation(vec3(0.0, 0.0, -3.0))`,
`viewport_size = (800, 600)`; the `ibo` handle is NOT stored. -/
def Renderer.new (program vao vbo ibo : Nat) : Option Renderer :=
  if vao = 0 then none
  else if vbo = 0 then none
  else if ibo = 1 then none
  else some
    { program := program
      vao := vao
      vbo := vbo
      model_matrix := Mat4.fromRotationX (-95)
      view_matrix := Mat4.fromTranslation 0 0 (-3)
      viewport_size := (800, 600) }

/-- Buffer handles `Renderer::new` of `renderer.rs` creates: two
`CreateBuffers(1, _)` calls, first the vertex buffer, then the index
buffer. -/
def newCreatedBuffers (vbo ibo : Nat) : List Nat := [vbo, ibo]

/-- Program handles `Renderer::new` creates: one `CreateProgram` call. -/
def newCreatedPrograms (program : Nat) : List Nat := [program]

/-- Vertex-array handles `Renderer::new` creates: one
`CreateVertexArrays(1, _)` call. -/
def newCreatedVertexArrays (vao : Nat) : List Nat := [vao]

/-- `Renderer::draw_with_clear_color` of `renderer.rs`: builds
`projection = Mat4::perspective_rh_gl(45deg, w/h, 0.1, 100.0)` from the
stored `viewport_size`, uploads `projection * view_matrix * model_matrix`
via `UniformMatrix4fv(location, 1, false, _)`, then UseProgram,
BindVertexArray, BindBuffer, ClearColor, Clear(COLOR|DEPTH),
DrawElements(TRIANGLES, 12, UNSIGNED_INT). -/
def Renderer.draw_with_clear_color (env : GlEnv) (r : Renderer)
    (red green blue alpha : ℚ) : List GlAction :=
  let projection_matrix :=
    Mat4.perspectiveRhGl 45 r.viewport_size.1 r.viewport_size.2 (1/10) 100
  let combined_matrix := projection_matrix * r.view_matrix * r.model_matrix
  let matrix_location := env.uniformLocation r.program "uMatrix"
  [ .uniformMatrix4fv matrix_location false combined_matrix,
    .useProgram r.program,
    .bindVertexArray r.vao,
    .bindBuffer GL_ARRAY_BUFFER r.vbo,
    .clearColor red green blue alpha,
    .clear (GL_COLOR_BUFFER_BIT ||| GL_DEPTH_BUFFER_BIT),
    .drawElements GL_TRIANGLES 12 GL_UNSIGNED_INT ]

/-- `Renderer::draw` of `renderer.rs`: delegates with the literal clear
color `(0.1, 0.1, 0.1, 0.9)`. -/
def Renderer.draw (env : GlEnv) (r : Renderer) : List GlAction :=
  r.draw_with_clear_color env (1/10) (1/10) (1/10) (9/10)

/-- `Renderer::resize` of `renderer.rs`: stores `(width, height)` in
`viewport_size` and calls `gl.Viewport(0, 0, width, height)`. -/
def Renderer.resize (r : Renderer) (width height : Int) :
    Renderer × List GlAction :=
  ({ r with viewport_size := (width, height) },
   [ .viewport 0 0 width height ])

/-- `impl Drop for Renderer` of `renderer.rs`: DeleteProgram,
DeleteBuffers(1, &vbo), DeleteVertexArrays(1, &vao) — the index buffer
handle is not mentioned (it is not a field of the struct). -/
def Renderer.dropTrace (r : Renderer) : List GlAction :=
  [ .deleteProgram r.program,
    .deleteBuffers r.vbo,
    .deleteVertexArrays r.vao ]

end renderer

/-! ## Vertex attribute layouts (claim C4)

Declared layouts are read off the `VertexAttribPointer` calls in `window.rs`
and the `VertexArrayVertexBuffer` / `VertexArrayAttribFormat` calls in
`renderer.rs`; CPU-side layouts are read off the vertex data those buffers
are populated from (`[f32; 15]` in `window.rs`; `#[repr(C)] struct Vertex
{ position: Vec3, color: Vec3 }` in `renderer.rs`, where `glam::Vec3` is
three `f32`s with no padding). -/

/-- One attribute description: component count, GL numeric type, byte
offset inside the interleaved vertex record. -/
structure AttribDecl where
  size : Int
  ty : Nat
  offset : Nat
deriving DecidableEq, Repr

def size_of_f32 : Nat := 4

def size_of_Vec3 : Nat := 3 * size_of_f32

/-- `std::mem::size_of::<Vertex>()` for `#[repr(C)] { position: Vec3,
color: Vec3 }`. -/
def size_of_Vertex : Nat := 2 * size_of_Vec3

/-- `offset_of!(Vertex, color)`: the `color` field follows the `position:
Vec3` field. -/
def offset_of_color : Nat := size_of_Vec3

namespace window

/-- Declared in `window.rs`: `VertexAttribPointer(pos, 2, FLOAT, 0,
5*size_of f32, null)`. -/
def posAttribDecl : AttribDecl := ⟨2, GL_FLOAT, 0⟩

/-- Declared in `window.rs`: `VertexAttribPointer(color, 3, FLOAT, 0,
5*size_of f32, 2*size_of f32)`. -/
def colorAttribDecl : AttribDecl := ⟨3, GL_FLOAT, 2 * size_of_f32⟩

/-- Stride passed to both `VertexAttribPointer` calls in `window.rs`. -/
def strideDecl : Nat := 5 * size_of_f32

/-- CPU-side record of `window.rs`: `VERTEX_DATA: [f32; 15]`, five `f32`
per vertex — two position components at offset 0. -/
def cpuPosAttrib : AttribDecl := ⟨2, GL_FLOAT, 0⟩

/-- CPU-side record of `window.rs`: three `f32` color components after the
two position components. -/
def cpuColorAttrib : AttribDecl := ⟨3, GL_FLOAT, 2 * size_of_f32⟩

/-- Byte size of one CPU-side vertex record in `window.rs` (5 `f32`). -/
def cpuRecordSize : Nat := 5 * size_of_f32

end window

namespace renderer

/-- Declared in `renderer.rs`: `VertexArrayAttribFormat(vao, pos, 3, FLOAT,
false, 0)`. -/
def posAttribDecl : AttribDecl := ⟨3, GL_FLOAT, 0⟩

/-- Declared in `renderer.rs`: `VertexArrayAttribFormat(vao, color,
(size_of Vec3 / size_of f32) as i32, UNSIGNED_INT, false, offset_of!(Vertex,
color))`. -/
def colorAttribDecl : AttribDecl :=
  ⟨(size_of_Vec3 / size_of_f32 : Nat), GL_UNSIGNED_INT, offset_of_color⟩

/-- Stride passed to `VertexArrayVertexBuffer` in `renderer.rs`:
`size_of::<Vertex>()`. -/
def strideDecl : Nat := size_of_Vertex

/-- CPU-side record of `renderer.rs`: `position: Vec3` — three `f32` at
offset 0. -/
def cpuPosAttrib : AttribDecl := ⟨3, GL_FLOAT, 0⟩

/-- CPU-side record of `renderer.rs`: `color: Vec3` — three `f32` at
`offset_of!(Vertex, color)`. -/
def cpuColorAttrib : AttribDecl := ⟨3, GL_FLOAT, offset_of_color⟩

/-- Byte size of one CPU-side vertex record in `renderer.rs`. -/
def cpuRecordSize : Nat := size_of_Vertex

end renderer

/-! ## Concrete sample states used by counterexamples and witnesses -/

/-- A fully initialised `GfWindow` (as after `resumed`): renderer handles
`(program, vao, vbo) = (1, 2, 3)`, an 800x600 surface, a current context. -/
def sampleWindow : window.GfWindow :=
  { renderer := some ⟨1, 2, 3⟩
    surface := some ⟨(800, 600)⟩
    context := some () }

/-- GL server state with the viewport at `(0, 0, 800, 600)`. -/
def sampleGl : GlState := ⟨(0, 0, 800, 600)⟩

/-- The `renderer.rs` `Renderer` value that `Renderer::new 1 2 3 4`
returns (note: the ibo handle `4` is not stored). -/
def sampleRenderer3D : renderer.Renderer :=
  { program := 1
    vao := 2
    vbo := 3
    model_matrix := Mat4.fromRotationX (-95)
    view_matrix := Mat4.fromTranslation 0 0 (-3)
    viewport_size := (800, 600) }

/-! ## Claim theorems -/

/-- C1 (code evaluated at the failing input): `GfWindow::window_event`
matches only `RedrawRequested`, so a `Resized(640, 480)` event on a fully
initialised window is a no-op — empty GL trace, window state unchanged, the
viewport still `(0, 0, 800, 600)`, not `(0, 0, 640, 480)` as the claim
requires. The last conjunct shows `Renderer::resize` itself, had the
handler called it, would have set the claimed viewport. -/
theorem window_event_ignores_resized :
    sampleWindow.window_event (.resized 640 480) = some (sampleWindow, []) ∧
    applyTrace sampleGl [] = sampleGl ∧
    sampleGl.viewport ≠ (0, 0, 640, 480) ∧
    (∀ r : renderer.Renderer,
      (applyTrace sampleGl (r.resize 640 480).2).viewport = (0, 0, 640, 480)) :=
  ⟨rfl, rfl, by decide, fun _ => rfl⟩

/-- C2: a `Resized` event with a zero width or height does not panic
(the handler returns `some`) and leaves the window state, the GL trace and
hence the viewport and surface state unchanged. -/
theorem zero_resize_event_ignored (st : window.GfWindow) (width height : Nat)
    (_hzero : width = 0 ∨ height = 0) (g : GlState) :
    st.window_event (.resized width height) = some (st, []) ∧
    applyTrace g [] = g :=
  ⟨rfl, rfl⟩

/-- C2 witness: the theorem applied at width 0, height 600 on the sample
initialised window. -/
theorem zero_resize_event_ignored_witness :
    ((0 : Nat) = 0 ∨ (600 : Nat) = 0) ∧
    (sampleWindow.window_event (.resized 0 600) = some (sampleWindow, []) ∧
      applyTrace sampleGl [] = sampleGl) :=
  ⟨Or.inl rfl, zero_resize_event_ignored sampleWindow 0 600 (Or.inl rfl) sampleGl⟩

/-- C3 (code evaluated at the failing input): `Renderer::new 1 2 3 4`
creates buffers `[3, 4]` (vbo then ibo) but `Drop` releases program `1`,
buffer `3` and vertex array `2` only — the index buffer `4` is created and
never released. The final conjunct shows the non-indexed `window.rs`
variant does release exactly its one created buffer, program and vertex
array. -/
theorem drop_leaks_index_buffer :
    renderer.Renderer.new 1 2 3 4 = some sampleRenderer3D ∧
    renderer.newCreatedBuffers 3 4 = [3, 4] ∧
    releasedPrograms sampleRenderer3D.dropTrace = [1] ∧
    releasedVertexArrays sampleRenderer3D.dropTrace = [2] ∧
    releasedBuffers sampleRenderer3D.dropTrace = [3] ∧
    4 ∈ renderer.newCreatedBuffers 3 4 ∧
    4 ∉ releasedBuffers sampleRenderer3D.dropTrace ∧
    (∀ w : window.Renderer,
      releasedBuffers w.dropTrace = window.newCreatedBuffers w.vbo ∧
      releasedPrograms w.dropTrace = [w.program] ∧
      releasedVertexArrays w.dropTrace = [w.vao]) :=
  ⟨by decide, rfl, rfl, rfl, rfl, by decide, by decide, fun _ => ⟨rfl, rfl, rfl⟩⟩

/-- C4 (code evaluated at the failing input): in the 2-D variant both
attributes and the stride match the CPU record, and in the 3-D variant the
position attribute and stride match; but the 3-D color attribute is
declared with numeric type `GL_UNSIGNED_INT` while the CPU field `color:
Vec3` is made of `f32` (`GL_FLOAT`) — same component count and offset,
different type. -/
theorem color_attrib_type_mismatch :
    window.posAttribDecl = window.cpuPosAttrib ∧
    window.colorAttribDecl = window.cpuColorAttrib ∧
    window.strideDecl = window.cpuRecordSize ∧
    renderer.posAttribDecl = renderer.cpuPosAttrib ∧
    renderer.strideDecl = renderer.cpuRecordSize ∧
    renderer.colorAttribDecl ≠ renderer.cpuColorAttrib ∧
    renderer.colorAttribDecl.ty = GL_UNSIGNED_INT ∧
    renderer.cpuColorAttrib.ty = GL_FLOAT ∧
    renderer.colorAttribDecl.size = renderer.cpuColorAttrib.size ∧
    renderer.colorAttribDecl.offset = renderer.cpuColorAttrib.offset := by
  decide

/-- C5: every 3-D `draw_with_clear_color` trace contains exactly one
`DrawElements` call, at index 6, over 12 indices; the uniform upload of
`projection * view * model` (projection built from the stored viewport
size) sits at index 0, strictly before it; and `draw` delegates with the
default clear color. -/
theorem draw3d_indexed_after_uniform (env : renderer.GlEnv)
    (r : renderer.Renderer) (red green blue alpha : ℚ) :
    (r.draw_with_clear_color env red green blue alpha).countP isDrawElements
        = 1 ∧
    (r.draw_with_clear_color env red green blue alpha).get? 6
        = some (.drawElements GL_TRIANGLES 12 GL_UNSIGNED_INT) ∧
    (r.draw_with_clear_color env red green blue alpha).get? 0
        = some (.uniformMatrix4fv (env.uniformLocation r.program "uMatrix")
            false
            (Mat4.perspectiveRhGl 45 r.viewport_size.1 r.viewport_size.2
                (1/10) 100 * r.view_matrix * r.model_matrix)) ∧
    (0 : Nat) < 6 ∧
    renderer.Renderer.draw env r
        = r.draw_with_clear_color env (1/10) (1/10) (1/10) (9/10) :=
  ⟨rfl, rfl, rfl, by decide, rfl⟩

/-- C6: every 2-D `draw_with_clear_color` trace contains exactly one
`ClearColor` (with the given color), one `Clear` of the color buffer bit,
and one `DrawArrays(TRIANGLES, 0, 3)` — and no indexed draw; the
parameterless `draw` delegates with clear color `(0.1, 0.1, 0.1, 0.9)`. -/
theorem draw2d_one_clear_one_draw (r : window.Renderer)
    (red green blue alpha : ℚ) :
    (r.draw_with_clear_color red green blue alpha).countP isClearColor = 1 ∧
    (r.draw_with_clear_color red green blue alpha).get? 3
        = some (.clearColor red green blue alpha) ∧
    (r.draw_with_clear_color red green blue alpha).countP isClear = 1 ∧
    (r.draw_with_clear_color red green blue alpha).get? 4
        = some (.clear GL_COLOR_BUFFER_BIT) ∧
    (r.draw_with_clear_color red green blue alpha).countP isDrawArrays = 1 ∧
    (r.draw_with_clear_color red green blue alpha).get? 5
        = some (.drawArrays GL_TRIANGLES 0 3) ∧
    (r.draw_with_clear_color red green blue alpha).countP isDrawElements
        = 0 ∧
    r.draw = r.draw_with_clear_color (1/10) (1/10) (1/10) (9/10) :=
  ⟨rfl, rfl, rfl, rfl, rfl, rfl, rfl, rfl⟩

/-- C8: on `RedrawRequested` the handler emits the draw trace, then
`requestRedraw`, then `swapBuffers`: each of the draw call, redraw request
and buffer swap occurs exactly once, at indices 5 < 6 < 7 respectively, so
the swap never precedes the draw of the same step. -/
theorem redraw_event_order (r : window.Renderer) (s : window.Surface) :
    ({ renderer := some r, surface := some s, context := some () }
        : window.GfWindow).window_event .redrawRequested
      = some (⟨some r, some s, some ()⟩,
          r.draw ++ [.requestRedraw, .swapBuffers]) ∧
    (r.draw ++ [GlAction.requestRedraw, GlAction.swapBuffers]).countP isDrawArrays = 1 ∧
    (r.draw ++ [GlAction.requestRedraw, GlAction.swapBuffers]).countP isRequestRedraw = 1 ∧
    (r.draw ++ [GlAction.requestRedraw, GlAction.swapBuffers]).countP isSwapBuffers = 1 ∧
    (r.draw ++ [GlAction.requestRedraw, GlAction.swapBuffers]).get? 5
        = some (.drawArrays GL_TRIANGLES 0 3) ∧
    (r.draw ++ [GlAction.requestRedraw, GlAction.swapBuffers]).get? 6
        = some .requestRedraw ∧
    (r.draw ++ [GlAction.requestRedraw, GlAction.swapBuffers]).get? 7
        = some .swapBuffers :=
  ⟨rfl, rfl, rfl, rfl, rfl, rfl, rfl⟩

/-- C9: `Renderer::resize` is idempotent — applying it twice with the same
`(width, height)` yields the same renderer state (stored `viewport_size`)
and the same final GL viewport state as applying it once. -/
theorem resize_idempotent (r : renderer.Renderer) (width height : Int)
    (g : GlState) :
    ((r.resize width height).1.resize width height).1
        = (r.resize width height).1 ∧
    applyTrace g ((r.resize width height).2
        ++ ((r.resize width height).1.resize width height).2)
      = applyTrace g (r.resize width height).2 :=
  ⟨rfl, rfl⟩

/-- C10: the ibo assertion in `Renderer::new` checks `!= 1`, not `!= 0`:
construction succeeds with ibo handle `0` (the failure value) and aborts
with ibo handle `1`, while a zero vao or vbo (checked against `0`) does
abort. -/
theorem ibo_assert_checks_one :
    (renderer.Renderer.new 7 5 6 0).isSome = true ∧
    renderer.Renderer.new 7 5 6 1 = none ∧
    renderer.Renderer.new 7 0 6 2 = none ∧
    renderer.Renderer.new 7 5 0 2 = none := by
  decide

/-- Fold invariant of the `config_picker` reduction: the fold either keeps
the accumulator (nothing in the list strictly beats its sample count), or
returns a list element that strictly beats the accumulator and every
element before its occurrence, and is not beaten by anything after it. -/
theorem config_picker_fold_spec (l : List window.Config)
    (acc : window.Config) :
    (l.foldl (fun acc config =>
        if config.num_samples > acc.num_samples then config else acc) acc
          = acc
      ∧ ∀ c ∈ l, c.num_samples ≤ acc.num_samples)
    ∨ (∃ pre r post, l = pre ++ r :: post ∧
        l.foldl (fun acc config =>
          if config.num_samples > acc.num_samples then config else acc) acc
            = r ∧
        acc.num_samples < r.num_samples ∧
        (∀ c ∈ pre, c.num_samples < r.num_samples) ∧
        (∀ c ∈ post, c.num_samples ≤ r.num_samples)) := by
  induction l generalizing acc with
  | nil => exact Or.inl ⟨rfl, by simp⟩
  | cons c rest ih =>
    rw [List.foldl_cons]
    by_cases h : c.num_samples > acc.num_samples
    · rw [if_pos h]
      rcases ih c with ⟨hr, hall⟩ | ⟨pre, r, post, hsplit, hres, hlt, hpre, hpost⟩
      · exact Or.inr ⟨[], c, rest, by simp, hr, h, by simp, hall⟩
      · refine Or.inr ⟨c :: pre, r, post, by rw [hsplit, List.cons_append],
          hres, lt_trans h hlt, ?_, hpost⟩
        intro d hd
        rcases List.mem_cons.mp hd with rfl | hd
        · exact hlt
        · exact hpre d hd
    · rw [if_neg h]
      rcases ih acc with ⟨hr, hall⟩ | ⟨pre, r, post, hsplit, hres, hlt, hpre, hpost⟩
      · refine Or.inl ⟨hr, ?_⟩
        intro d hd
        rcases List.mem_cons.mp hd with rfl | hd
        · exact not_lt.mp h
        · exact hall d hd
      · refine Or.inr ⟨c :: pre, r, post, by rw [hsplit, List.cons_append],
          hres, hlt, ?_, hpost⟩
        intro d hd
        rcases List.mem_cons.mp hd with rfl | hd
        · exact lt_of_le_of_lt (not_lt.mp h) hlt
        · exact hpre d hd

/-- C7: on a nonempty candidate list, the `config_picker` closure of
`GfWindow::new` returns a candidate whose `num_samples` is maximal among
all candidates, and which is the first-seen candidate attaining that
maximum (every candidate strictly before it has strictly fewer samples). -/
theorem config_picker_max_first_seen (configs : List window.Config)
    (hne : configs ≠ []) :
    ∃ r pre post, window.config_picker configs = some r ∧
      configs = pre ++ r :: post ∧
      (∀ c ∈ configs, c.num_samples ≤ r.num_samples) ∧
      (∀ c ∈ pre, c.num_samples < r.num_samples) := by
  match configs, hne with
  | c :: rest, _ =>
    rcases config_picker_fold_spec rest c with ⟨hr, hall⟩ |
      ⟨pre, r, post, hsplit, hres, hlt, hpre, hpost⟩
    · refine ⟨c, [], rest, ?_, by simp, ?_, by simp⟩
      · simp [window.config_picker, hr]
      · intro d hd
        rcases List.mem_cons.mp hd with rfl | hd
        · exact le_refl _
        · exact hall d hd
    · refine ⟨r, c :: pre, post, ?_, by rw [hsplit, List.cons_append], ?_, ?_⟩
      · simp [window.config_picker, hres]
      · intro d hd
        rcases List.mem_cons.mp hd with rfl | hd
        · exact le_of_lt hlt
        · rw [hsplit] at hd
          rcases List.mem_append.mp hd with hd | hd
          · exact le_of_lt (hpre d hd)
          · rcases List.mem_cons.mp hd with rfl | hd
            · exact le_refl _
            · exact hpost d hd
      · intro d hd
        rcases List.mem_cons.mp hd with rfl | hd
        · exact hlt
        · exact hpre d hd

/-- Platform candidate list used by the C7 witness: sample counts 2, 4, 4,
1 — the maximum 4 is first attained by the candidate with id 1. -/
def sampleConfigs : List window.Config := [⟨0, 2⟩, ⟨1, 4⟩, ⟨2, 4⟩, ⟨3, 1⟩]

/-- C7 witness: the theorem applied to the concrete candidate list. -/
theorem config_picker_max_first_seen_witness :
    sampleConfigs ≠ [] ∧
    (∃ r pre post, window.config_picker sampleConfigs = some r ∧
      sampleConfigs = pre ++ r :: post ∧
      (∀ c ∈ sampleConfigs, c.num_samples ≤ r.num_samples) ∧
      (∀ c ∈ pre, c.num_samples < r.num_samples)) :=
  ⟨by decide, config_picker_max_first_seen sampleConfigs (by decide)⟩
